import Mathlib

/-!
Shallow embedding of the item-catalog domain core of ItemPDPService
(Go sources under internal/domain/item, internal/application/usecase and
internal/infrastructure/persistence), together with theorems settling the
spec claims about it.

Strings are modelled as lists of characters (Go operates on the ASCII
fragment for every rule below), Go `time.Time` as an abstract integer
clock passed explicitly, Go `float64` values as the exact rationals they
denote with every arithmetic operation followed by IEEE-754 binary64
rounding (fpRound below), and the database as an in-memory list of rows
obeying the SQL statements the repository issues.
-/

namespace ItemPDP

abbrev Str := List Char

/-- Go strings.ToUpper on the ASCII fragment. -/
def strToUpper (s : Str) : Str := s.map Char.toUpper

/-- Go strings.ToLower on the ASCII fragment. -/
def strToLower (s : Str) : Str := s.map Char.toLower

/-- Go unicode.IsSpace on the ASCII fragment (used by strings.TrimSpace). -/
def goIsSpace (c : Char) : Bool :=
  c = ' ' || c = '\t' || c = '\n' || c = '\r' || c = '\x0b' || c = '\x0c'

/-- Go strings.TrimSpace: drop leading and trailing whitespace. -/
def trimSpace (s : Str) : Str :=
  ((s.dropWhile goIsSpace).reverse.dropWhile goIsSpace).reverse

/-- Whether `needle` occurs as a contiguous substring of the first argument
(SQL LIKE with wildcards on both sides). -/
def strHasSub : Str → Str → Bool
  | [], needle => needle.isEmpty
  | c :: rest, needle => needle.isPrefixOf (c :: rest) || strHasSub rest needle

/-! ## Binary64 arithmetic

Go's float64 is IEEE-754 binary64: every value is an exact rational, and
each multiplication, division or int-to-float conversion produces the
exact rational result rounded to the nearest 53-bit-significand value,
ties to even. The magnitudes in this service stay in the normal range, so
overflow and subnormal rounding never arise and are not modelled. -/

/-- Floor of the base-2 logarithm, by structural recursion on a fuel. -/
def natLog2Aux : Nat → Nat → Nat
  | 0, _ => 0
  | fuel + 1, n => if n < 2 then 0 else natLog2Aux fuel (n / 2) + 1

/-- Largest k with 2^k ≤ n, for n ≥ 1. -/
def natLog2 (n : Nat) : Nat := natLog2Aux n n

lemma natLog2Aux_spec : ∀ fuel n, 1 ≤ n → n ≤ fuel →
    2 ^ natLog2Aux fuel n ≤ n ∧ n < 2 ^ (natLog2Aux fuel n + 1) := by
  intro fuel
  induction fuel with
  | zero => intro n h1 h2; omega
  | succ fuel ih =>
    intro n h1 h2
    by_cases hn : n < 2
    · simp only [natLog2Aux, if_pos hn, pow_zero, pow_one]
      omega
    · simp only [natLog2Aux, if_neg hn]
      have hd1 : 2 * (n / 2) ≤ n := by omega
      have hd2 : n < 2 * (n / 2) + 2 := by omega
      obtain ⟨ih1, ih2⟩ := ih (n / 2) (by omega) (by omega)
      constructor
      · calc 2 ^ (natLog2Aux fuel (n / 2) + 1)
            = 2 * 2 ^ natLog2Aux fuel (n / 2) := by ring
          _ ≤ 2 * (n / 2) := Nat.mul_le_mul le_rfl ih1
          _ ≤ n := hd1
      · have hstep : n / 2 + 1 ≤ 2 ^ (natLog2Aux fuel (n / 2) + 1) := ih2
        calc n < 2 * (n / 2) + 2 := hd2
          _ = 2 * (n / 2 + 1) := by ring
          _ ≤ 2 * 2 ^ (natLog2Aux fuel (n / 2) + 1) := Nat.mul_le_mul le_rfl hstep
          _ = 2 ^ (natLog2Aux fuel (n / 2) + 1 + 1) := by ring

lemma natLog2_spec (n : Nat) (h : 1 ≤ n) :
    2 ^ natLog2 n ≤ n ∧ n < 2 ^ (natLog2 n + 1) :=
  natLog2Aux_spec n n h le_rfl

/-- Binary exponent of a positive rational: the largest k with 2^k ≤ q. -/
def ratILog2 (q : ℚ) : ℤ :=
  if (2 : ℚ) ^ ((natLog2 q.num.natAbs : ℤ) - (natLog2 q.den : ℤ)) ≤ q then
    (natLog2 q.num.natAbs : ℤ) - (natLog2 q.den : ℤ)
  else
    (natLog2 q.num.natAbs : ℤ) - (natLog2 q.den : ℤ) - 1

lemma ratILog2_spec (q : ℚ) (hq : 0 < q) :
    (2 : ℚ) ^ ratILog2 q ≤ q ∧ q < (2 : ℚ) ^ (ratILog2 q + 1) := by
  have hnum : 0 < q.num := Rat.num_pos.mpr hq
  have hden : 0 < q.den := q.pos
  obtain ⟨hA1, hA2⟩ := natLog2_spec q.num.natAbs (by omega)
  obtain ⟨hB1, hB2⟩ := natLog2_spec q.den (by omega)
  have hqeq : q = (q.num.natAbs : ℚ) / (q.den : ℚ) := by
    conv_lhs => rw [← Rat.num_div_den q]
    congr 1
    rw [show ((q.num.natAbs : ℕ) : ℚ) = ((q.num.natAbs : ℤ) : ℚ) from
      (Int.cast_natCast _).symm,
      Int.natAbs_of_nonneg hnum.le]
  have hdQ : (0 : ℚ) < (q.den : ℚ) := by exact_mod_cast hden
  have hlaQ : (2 : ℚ) ^ (natLog2 q.num.natAbs) ≤ (q.num.natAbs : ℚ) := by
    exact_mod_cast hA1
  have hlaQ2 : (q.num.natAbs : ℚ) < 2 ^ (natLog2 q.num.natAbs + 1) := by
    exact_mod_cast hA2
  have hlbQ : (2 : ℚ) ^ (natLog2 q.den) ≤ (q.den : ℚ) := by exact_mod_cast hB1
  have hlbQ2 : (q.den : ℚ) < 2 ^ (natLog2 q.den + 1) := by exact_mod_cast hB2
  have key_low :
      (2 : ℚ) ^ ((natLog2 q.num.natAbs : ℤ) - (natLog2 q.den : ℤ) - 1) < q := by
    have hform : (2 : ℚ) ^ ((natLog2 q.num.natAbs : ℤ) - (natLog2 q.den : ℤ) - 1) =
        2 ^ (natLog2 q.num.natAbs) / 2 ^ (natLog2 q.den + 1) := by
      rw [show (natLog2 q.num.natAbs : ℤ) - (natLog2 q.den : ℤ) - 1 =
          (natLog2 q.num.natAbs : ℤ) - ((natLog2 q.den + 1 : ℕ) : ℤ) from by
        push_cast; ring]
      rw [zpow_sub₀ (by norm_num : (2 : ℚ) ≠ 0), zpow_natCast, zpow_natCast]
    have hfrac : (2 : ℚ) ^ (natLog2 q.num.natAbs) / 2 ^ (natLog2 q.den + 1) <
        (q.num.natAbs : ℚ) / (q.den : ℚ) := by
      rw [div_lt_div_iff₀ (by positivity) hdQ]
      calc (2 : ℚ) ^ (natLog2 q.num.natAbs) * (q.den : ℚ)
          < (2 : ℚ) ^ (natLog2 q.num.natAbs) * 2 ^ (natLog2 q.den + 1) :=
            mul_lt_mul_of_pos_left hlbQ2 (by positivity)
        _ ≤ (q.num.natAbs : ℚ) * 2 ^ (natLog2 q.den + 1) :=
            mul_le_mul_of_nonneg_right hlaQ (by positivity)
    calc (2 : ℚ) ^ ((natLog2 q.num.natAbs : ℤ) - (natLog2 q.den : ℤ) - 1)
        = 2 ^ (natLog2 q.num.natAbs) / 2 ^ (natLog2 q.den + 1) := hform
      _ < (q.num.natAbs : ℚ) / (q.den : ℚ) := hfrac
      _ = q := hqeq.symm
  have key_high :
      q < (2 : ℚ) ^ ((natLog2 q.num.natAbs : ℤ) - (natLog2 q.den : ℤ) + 1) := by
    have hform : (2 : ℚ) ^ ((natLog2 q.num.natAbs : ℤ) - (natLog2 q.den : ℤ) + 1) =
        2 ^ (natLog2 q.num.natAbs + 1) / 2 ^ (natLog2 q.den) := by
      rw [show (natLog2 q.num.natAbs : ℤ) - (natLog2 q.den : ℤ) + 1 =
          ((natLog2 q.num.natAbs + 1 : ℕ) : ℤ) - ((natLog2 q.den : ℕ) : ℤ) from by
        push_cast; ring]
      rw [zpow_sub₀ (by norm_num : (2 : ℚ) ≠ 0), zpow_natCast, zpow_natCast]
    have hfrac : (q.num.natAbs : ℚ) / (q.den : ℚ) <
        2 ^ (natLog2 q.num.natAbs + 1) / 2 ^ (natLog2 q.den) := by
      rw [div_lt_div_iff₀ hdQ (by positivity)]
      calc (q.num.natAbs : ℚ) * 2 ^ (natLog2 q.den)
          ≤ (q.num.natAbs : ℚ) * (q.den : ℚ) :=
            mul_le_mul_of_nonneg_left hlbQ (by positivity)
        _ < 2 ^ (natLog2 q.num.natAbs + 1) * (q.den : ℚ) :=
            mul_lt_mul_of_pos_right hlaQ2 hdQ
    calc q = (q.num.natAbs : ℚ) / (q.den : ℚ) := hqeq
      _ < 2 ^ (natLog2 q.num.natAbs + 1) / 2 ^ (natLog2 q.den) := hfrac
      _ = (2 : ℚ) ^ ((natLog2 q.num.natAbs : ℤ) - (natLog2 q.den : ℤ) + 1) := hform.symm
  unfold ratILog2
  split_ifs with h
  · exact ⟨h, key_high⟩
  · constructor
    · exact key_low.le
    · rw [show (natLog2 q.num.natAbs : ℤ) - (natLog2 q.den : ℤ) - 1 + 1 =
          (natLog2 q.num.natAbs : ℤ) - (natLog2 q.den : ℤ) from by ring]
      exact not_le.mp h

/-- Round to the nearest integer, ties to even. -/
def roundNearestEven (m : ℚ) : ℤ :=
  if m - ⌊m⌋ < 1 / 2 then ⌊m⌋
  else if 1 / 2 < m - ⌊m⌋ then ⌊m⌋ + 1
  else if 2 ∣ ⌊m⌋ then ⌊m⌋ else ⌊m⌋ + 1

lemma roundNearestEven_err (m : ℚ) : |((roundNearestEven m : ℤ) : ℚ) - m| ≤ 1 / 2 := by
  have h0 : (⌊m⌋ : ℚ) ≤ m := Int.floor_le m
  have h1 : m < ⌊m⌋ + 1 := Int.lt_floor_add_one m
  unfold roundNearestEven
  split_ifs with c1 c2 c3
  · rw [abs_le]
    constructor <;> linarith
  · rw [abs_le]
    push_cast
    constructor <;> linarith
  · rw [not_lt] at c1 c2
    rw [abs_le]
    constructor <;> linarith
  · rw [not_lt] at c1 c2
    rw [abs_le]
    push_cast
    constructor <;> linarith

/-- Round a positive rational to the nearest binary64 value (53-bit
significand, round to nearest, ties to even). -/
def fpRoundPos (q : ℚ) : ℚ :=
  ((roundNearestEven (q / 2 ^ (ratILog2 q - 52)) : ℤ) : ℚ) * 2 ^ (ratILog2 q - 52)

/-- IEEE-754 binary64 rounding of an exact rational (normal range). -/
def fpRound (q : ℚ) : ℚ :=
  if q = 0 then 0
  else if q < 0 then -fpRoundPos (-q)
  else fpRoundPos q

/-- Correctly rounded float64 multiplication. -/
def fpMul (a b : ℚ) : ℚ := fpRound (a * b)

/-- Correctly rounded float64 division. -/
def fpDiv (a b : ℚ) : ℚ := fpRound (a / b)

/-- int64 → float64 conversion (correctly rounded; exact below 2^53). -/
def fpOfInt (n : ℤ) : ℚ := fpRound (n : ℚ)

lemma fpRoundPos_err (q : ℚ) (hq : 0 < q) :
    |fpRoundPos q - q| ≤ q / 2 ^ (53 : ℕ) := by
  obtain ⟨hlo, hhi⟩ := ratILog2_spec q hq
  have h2e : (0 : ℚ) < 2 ^ (ratILog2 q - 52) := zpow_pos (by norm_num) _
  have hm := roundNearestEven_err (q / 2 ^ (ratILog2 q - 52))
  have hsplit : fpRoundPos q - q =
      (((roundNearestEven (q / 2 ^ (ratILog2 q - 52)) : ℤ) : ℚ) -
        q / 2 ^ (ratILog2 q - 52)) * 2 ^ (ratILog2 q - 52) := by
    unfold fpRoundPos
    field_simp
  have hee : (2 : ℚ) ^ (ratILog2 q - 52) ≤ q / 2 ^ (52 : ℕ) := by
    rw [zpow_sub₀ (by norm_num : (2 : ℚ) ≠ 0),
      show ((2 : ℚ) ^ (52 : ℤ)) = 2 ^ (52 : ℕ) from zpow_natCast 2 52]
    gcongr
  rw [hsplit, abs_mul, abs_of_pos h2e]
  calc |((roundNearestEven (q / 2 ^ (ratILog2 q - 52)) : ℤ) : ℚ) -
        q / 2 ^ (ratILog2 q - 52)| * 2 ^ (ratILog2 q - 52)
      ≤ (1 / 2) * 2 ^ (ratILog2 q - 52) := mul_le_mul_of_nonneg_right hm h2e.le
    _ ≤ (1 / 2) * (q / 2 ^ (52 : ℕ)) := mul_le_mul_of_nonneg_left hee (by norm_num)
    _ = q / 2 ^ (53 : ℕ) := by
        rw [show (2 : ℚ) ^ (53 : ℕ) = 2 ^ (52 : ℕ) * 2 from by rw [pow_succ]]
        ring

lemma fpRound_err (q : ℚ) (hq : 0 ≤ q) : |fpRound q - q| ≤ q / 2 ^ (53 : ℕ) := by
  rcases eq_or_lt_of_le hq with h | h
  · simp [fpRound, ← h]
  · unfold fpRound
    rw [if_neg h.ne', if_neg (not_lt.mpr hq)]
    exact fpRoundPos_err q h

lemma fpRound_nonneg (q : ℚ) (hq : 0 ≤ q) : 0 ≤ fpRound q := by
  have h := fpRound_err q hq
  rw [abs_le] at h
  have h2 : q / 2 ^ (53 : ℕ) ≤ q := div_le_self hq (by norm_num)
  linarith

/-! ## Value objects (internal/domain/item/value_objects.go) -/

/-- Character class of the regexp `^[A-Z0-9-_]+$` in validateSKU. -/
def isSKUChar (c : Char) : Bool :=
  ('A' ≤ c && c ≤ 'Z') || ('0' ≤ c && c ≤ '9') || c = '-' || c = '_'

/-- Go validateSKU: returns the error message when invalid, none when valid. -/
def validateSKU (sku : Str) : Option Str :=
  if sku = [] then
    some "SKU cannot be empty".data
  else if sku.length < 3 || sku.length > 20 then
    some "SKU must be between 3 and 20 characters".data
  else if !(sku.all isSKUChar) then
    some "SKU can only contain uppercase letters, numbers, hyphens, and underscores".data
  else
    none

/-- Go NewSKU: uppercase, trim, validate. Errors carry the DomainError message. -/
def NewSKU (sku : Str) : Except Str Str :=
  let s := trimSpace (strToUpper sku)
  match validateSKU s with
  | some e => .error e
  | none => .ok s

/-- Price value object: amount in integer cents plus a currency code. -/
structure Price where
  amount : Int
  currency : Str
deriving DecidableEq, Repr

/-- Go int64(x) conversion: truncation toward zero of the (exactly known)
float64 value x. -/
def goTruncInt (q : ℚ) : Int := if 0 ≤ q then ⌊q⌋ else ⌈q⌉

/-- Go NewPrice: reject negative amounts, default empty currency to USD,
uppercase the currency, store `int64(amount * 100)` cents — a binary64
multiplication followed by truncation toward zero. -/
def NewPrice (amount : ℚ) (currency : Str) : Except Str Price :=
  if amount < 0 then .error "price cannot be negative".data
  else
    let c := if currency = [] then "USD".data else currency
    .ok { amount := goTruncInt (fpMul amount 100), currency := strToUpper c }

/-- Go Price.Amount(): `float64(p.amount) / 100`, an int64-to-float64
conversion followed by a binary64 division. -/
def Price.Amount (p : Price) : ℚ := fpDiv (fpOfInt p.amount) 100

/-- Category value object: display name plus derived slug. -/
structure Category where
  name : Str
  slug : Str
deriving DecidableEq, Repr

/-- Go NewCategory: trim the name, reject empty, derive the slug by
replacing spaces with hyphens and lowercasing. -/
def NewCategory (nameInput : Str) : Except Str Category :=
  let name := trimSpace nameInput
  if name = [] then .error "category name cannot be empty".data
  else .ok { name := name,
             slug := strToLower (name.map fun c => if c = ' ' then '-' else c) }

/-- Inventory value object. -/
structure Inventory where
  quantity : Int
deriving DecidableEq, Repr

/-- Go NewInventory: reject negative quantities. -/
def NewInventory (quantity : Int) : Except Str Inventory :=
  if quantity < 0 then .error "inventory quantity cannot be negative".data
  else .ok ⟨quantity⟩

/-- Image value object. -/
structure Image where
  url : Str
  alt : Str
  primaryFlag : Bool
deriving DecidableEq, Repr

/-- Go NewImage: reject empty URL. -/
def NewImage (url alt : Str) (primaryFlag : Bool) : Except Str Image :=
  if url = [] then .error "image URL cannot be empty".data
  else .ok ⟨url, alt, primaryFlag⟩

/-- Go Status enum. -/
inductive Status where
  | active
  | inactive
  | draft
  | archived
deriving DecidableEq, Repr

/-- Go Status.String(). -/
def Status.toStr : Status → Str
  | .active => "active".data
  | .inactive => "inactive".data
  | .draft => "draft".data
  | .archived => "archived".data

/-- Go StatusFromString: lowercase the input and match the four names. -/
def StatusFromString (status : Str) : Except Str Status :=
  let s := strToLower status
  if s = "active".data then .ok .active
  else if s = "inactive".data then .ok .inactive
  else if s = "draft".data then .ok .draft
  else if s = "archived".data then .ok .archived
  else .error ("invalid status: ".data ++ status)

/-! ## Item entity (internal/domain/item/entity.go).

Go `time.Now()` and `uuid.New()` are nondeterministic; they are modelled by
explicit `now : Int` and `freshId : Str` parameters supplied at each call. -/

structure Item where
  id : Str
  sku : Str
  name : Str
  description : Str
  price : Price
  category : Category
  inventory : Inventory
  images : List Image
  attributes : List (Str × Str)
  status : Status
  createdAt : Int
  updatedAt : Int
deriving DecidableEq, Repr

/-- Go NewItem: reject empty name; fresh id, zero inventory, no images,
empty attributes, draft status, both timestamps set to now. -/
def NewItem (sku name description : Str) (price : Price) (category : Category)
    (freshId : Str) (now : Int) : Except Str Item :=
  if name = [] then .error "item name cannot be empty".data
  else .ok
    { id := freshId, sku := sku, name := name, description := description
      price := price, category := category, inventory := ⟨0⟩, images := []
      attributes := [], status := .draft, createdAt := now, updatedAt := now }

/-- Go Item.SetName. -/
def Item.setName (i : Item) (name : Str) (now : Int) : Item :=
  { i with name := name, updatedAt := now }

/-- Go Item.SetDescription. -/
def Item.setDescription (i : Item) (d : Str) (now : Int) : Item :=
  { i with description := d, updatedAt := now }

/-- Go Item.SetPrice. -/
def Item.setPrice (i : Item) (p : Price) (now : Int) : Item :=
  { i with price := p, updatedAt := now }

/-- Go Item.SetCategory. -/
def Item.setCategory (i : Item) (c : Category) (now : Int) : Item :=
  { i with category := c, updatedAt := now }

/-- Go Item.SetInventory. -/
def Item.setInventory (i : Item) (inv : Inventory) (now : Int) : Item :=
  { i with inventory := inv, updatedAt := now }

/-- Go Item.SetStatus. -/
def Item.setStatus (i : Item) (s : Status) (now : Int) : Item :=
  { i with status := s, updatedAt := now }

/-- Go Item.SetImages. -/
def Item.setImages (i : Item) (imgs : List Image) (now : Int) : Item :=
  { i with images := imgs, updatedAt := now }

/-- Go Item.AddImage: append to the image list. -/
def Item.addImage (i : Item) (img : Image) (now : Int) : Item :=
  { i with images := i.images ++ [img], updatedAt := now }

/-- Go Item.ClearImages. -/
def Item.clearImages (i : Item) (now : Int) : Item :=
  { i with images := [], updatedAt := now }

/-! ## Attributes (internal/domain/item/value_objects.go), modelled as an
association list with overwrite-on-set semantics. -/

/-- Replace the value at a key, or append the pair when the key is new. -/
def assocSet (l : List (Str × Str)) (k v : Str) : List (Str × Str) :=
  if l.any (fun p => p.1 = k) then
    l.map fun p => if p.1 = k then (k, v) else p
  else l ++ [(k, v)]

/-- Go Attributes.Set: trim key and value, reject empty key, overwrite. -/
def attributesSet (attrs : List (Str × Str)) (key value : Str) :
    Except Str (List (Str × Str)) :=
  let k := trimSpace key
  let v := trimSpace value
  if k = [] then .error "attribute key cannot be empty".data
  else .ok (assocSet attrs k v)

/-! ## PostgreSQL repository
(internal/infrastructure/persistence/postgres_item_repository.go).

The database is a list of rows of the `items` table; the schema's UNIQUE
constraint on `sku` and the primary key on `id` are enforced on insert
(migrations/001_create_items_table.up.sql). -/

structure ItemRow where
  id : Str
  sku : Str
  name : Str
  description : Str
  priceCents : Int
  currency : Str
  categoryName : Str
  categorySlug : Str
  quantity : Int
  images : List Image
  attributes : List (Str × Str)
  status : Str
  createdAt : Int
  updatedAt : Int
deriving DecidableEq, Repr

abbrev DB := List ItemRow

/-- Whether `c` is a hexadecimal digit (google/uuid canonical form). -/
def isHexDigit (c : Char) : Bool :=
  c.isDigit || ('a' ≤ c && c ≤ 'f') || ('A' ≤ c && c ≤ 'F')

/-- Canonical 36-character UUID accepted by uuid.Parse at that length:
hyphens at positions 8, 13, 18, 23 and hex digits elsewhere. -/
def isCanonicalUUID (s : Str) : Bool :=
  s.length = 36 && s.enum.all fun p =>
    if p.1 = 8 || p.1 = 13 || p.1 = 18 || p.1 = 23 then p.2 = '-'
    else isHexDigit p.2

/-- The row the repository INSERTs / UPDATEs for an item.
`int64(Amount()*100)` re-derives the cents through binary64 arithmetic,
which can land one cent below the stored value (1999 cents reads back as
19.99 and re-stores as 1998). -/
def itemToRow (i : Item) : ItemRow :=
  { id := i.id, sku := i.sku, name := i.name, description := i.description
    priceCents := goTruncInt (fpMul i.price.Amount 100), currency := i.price.currency
    categoryName := i.category.name, categorySlug := i.category.slug
    quantity := i.inventory.quantity, images := i.images
    attributes := i.attributes, status := i.status.toStr
    createdAt := i.createdAt, updatedAt := i.updatedAt }

/-- The driver-level message of a unique-constraint violation; its exact
wording is the database's, only its difference from the domain messages
matters. -/
def pqDuplicateMsg : Str :=
  "duplicate key value violates unique constraint".data

/-- INSERT INTO items: fails on the schema's unique sku / primary-key id. -/
def dbInsert (db : DB) (row : ItemRow) : Except Str DB :=
  if db.any (fun r => r.sku = row.sku || r.id = row.id) then .error pqDuplicateMsg
  else .ok (db ++ [row])

/-- Go validateItemBusinessRules: the hardcoded business checks Save applies
(maxPriceThreshold 10000, allowed currencies, name length, sku hyphen,
restricted category, non-negative inventory). Returns the error message. -/
def validateItemBusinessRules (itm : Item) : Option Str :=
  if itm.price.Amount ≤ 0 then some "item price must be positive".data
  else if 10000 < itm.price.Amount then some "item price exceeds maximum threshold".data
  else if !(itm.price.currency = "USD".data || itm.price.currency = "EUR".data ||
            itm.price.currency = "GBP".data || itm.price.currency = "JPY".data) then
    some "unsupported currency".data
  else if itm.name.length < 3 then some "item name must be at least 3 characters".data
  else if 200 < itm.name.length then some "item name too long".data
  else if !(itm.sku.any (· = '-')) then some "SKU must contain at least one hyphen".data
  else if itm.category.name = "restricted".data then some "restricted category not allowed".data
  else if itm.inventory.quantity < 0 then some "inventory quantity cannot be negative".data
  else none

/-- Go applyBusinessCorrections: bump inventory in (0, minInventoryLevel=5)
to 5, re-price with default currency USD when currency is empty, and
auto-activate draft items with inventory above 100. The setters stamp
`updatedAt` with the current time. -/
def applyBusinessCorrections (itm : Item) (now : Int) : Item :=
  let itm := if 0 < itm.inventory.quantity ∧ itm.inventory.quantity < 5 then
    itm.setInventory ⟨5⟩ now else itm
  let itm := if itm.price.currency = [] then
    (match NewPrice itm.price.Amount "USD".data with
     | .ok p => itm.setPrice p now
     | .error _ => itm.setPrice ⟨0, []⟩ now)
    else itm
  if 100 < itm.inventory.quantity ∧ itm.status = .draft then
    itm.setStatus .active now else itm

/-- Go Save's autoDiscountRules map: category name to discount multiplier
(the float64 constants nearest 0.95, 0.90 and 0.85). -/
def autoDiscountRules (name : Str) : Option ℚ :=
  if name = "electronics".data then some (fpRound (95 / 100))
  else if name = "books".data then some (fpRound (90 / 100))
  else if name = "clothing".data then some (fpRound (85 / 100))
  else none

/-- The auto-discount block of Save: reprice by the category multiplier
(a binary64 multiplication), ignoring NewPrice's error as the source does
(zero value on failure). -/
def applyAutoDiscount (itm : Item) (now : Int) : Item :=
  match autoDiscountRules itm.category.name with
  | none => itm
  | some discount =>
    match NewPrice (fpMul itm.price.Amount discount) itm.price.currency with
    | .ok p => itm.setPrice p now
    | .error _ => itm.setPrice ⟨0, []⟩ now

/-- Go Save: business validation, corrections, auto-discount, INSERT.
The corrections mutate the caller's item through its pointer, so the
adjusted item is returned alongside the new database state. -/
def repoSave (db : DB) (itm : Item) (now : Int) : Except Str (DB × Item) :=
  match validateItemBusinessRules itm with
  | some e => .error ("business validation failed: ".data ++ e)
  | none =>
    let adjusted := applyAutoDiscount (applyBusinessCorrections itm now) now
    match dbInsert db (itemToRow adjusted) with
    | .error e => .error ("failed to save item: ".data ++ e)
    | .ok db2 => .ok (db2, adjusted)

/-- Prepend operation context to an error, as fmt.Errorf wrapping does. -/
def wrapErr (ctx : Str) (e : Except Str α) : Except Str α :=
  match e with
  | .error msg => .error (ctx ++ msg)
  | .ok a => .ok a

/-- Revalidate the images decoded from the row's JSON column. -/
def imagesFromRow : List Image → Except Str (List Image)
  | [] => .ok []
  | img :: rest => do
    let i ← wrapErr "invalid image: ".data (NewImage img.url img.alt img.primaryFlag)
    let tl ← imagesFromRow rest
    .ok (i :: tl)

/-- Rebuild the Attributes object from the row's JSON column via Set. -/
def attributesFromRow : List (Str × Str) → Except Str (List (Str × Str))
  | [] => .ok []
  | (k, v) :: rest => do
    let attrs ← attributesFromRow rest
    wrapErr "failed to set attribute: ".data (attributesSet attrs k v)

/-- Go rowToItem: parse and validate every column, then build the returned
item with NewItem from sku, name, description, price and category alone —
the row's id, inventory, status, images and attributes are validated but
then discarded (the source's TODO acknowledges the missing reconstruction),
so the result carries a fresh id, zero inventory, draft status, no images,
no attributes and load-time timestamps. -/
def rowToItem (row : ItemRow) (freshId : Str) (now : Int) : Except Str Item := do
  if !(isCanonicalUUID row.id) then
    throw ("invalid item ID: invalid item ID format".data)
  let sku ← wrapErr "invalid SKU: ".data (NewSKU row.sku)
  let price ← wrapErr "invalid price: ".data
    (NewPrice (fpDiv (fpOfInt row.priceCents) 100) row.currency)
  let category ← wrapErr "invalid category: ".data (NewCategory row.categoryName)
  let _ ← wrapErr "invalid inventory: ".data (NewInventory row.quantity)
  let _ ← wrapErr "invalid status: ".data (StatusFromString row.status)
  let _ ← imagesFromRow row.images
  let _ ← attributesFromRow row.attributes
  wrapErr "failed to create item: ".data
    (NewItem sku row.name row.description price category freshId now)

/-- Go FindByID: SELECT ... WHERE id = $1, then rowToItem. -/
def repoFindByID (db : DB) (id : Str) (freshId : Str) (now : Int) : Except Str Item :=
  match db.find? (fun r => r.id = id) with
  | none => .error ("item with ID ".data ++ id ++ " not found".data)
  | some row => rowToItem row freshId now

/-- Go FindBySKU: SELECT ... WHERE sku = $1, then rowToItem. -/
def repoFindBySKU (db : DB) (sku : Str) (freshId : Str) (now : Int) : Except Str Item :=
  match db.find? (fun r => r.sku = sku) with
  | none => .error ("item with SKU ".data ++ sku ++ " not found".data)
  | some row => rowToItem row freshId now

/-- ORDER BY created_at DESC. -/
def sqlOrderByCreatedDesc (rows : List ItemRow) : List ItemRow :=
  List.insertionSort (fun a b => b.createdAt ≤ a.createdAt) rows

/-- LIMIT $limit OFFSET $offset. -/
def sqlLimitOffset (rows : List ItemRow) (limit offset : Nat) : List ItemRow :=
  (rows.drop offset).take limit

/-- Convert every selected row (each through rowToItem). -/
def rowsToItems (rows : List ItemRow) (freshId : Str) (now : Int) :
    Except Str (List Item) :=
  rows.mapM fun r => rowToItem r freshId now

/-- Go ExistsBySKU: SELECT EXISTS(SELECT 1 FROM items WHERE sku = $1). -/
def repoExistsBySKU (db : DB) (sku : Str) : Bool :=
  db.any fun r => r.sku = sku

/-- Go FindByCategory: WHERE category_slug = $1 ORDER BY created_at DESC. -/
def repoFindByCategory (db : DB) (category : Category) (limit offset : Nat)
    (freshId : Str) (now : Int) : Except Str (List Item) :=
  rowsToItems (sqlLimitOffset
    (sqlOrderByCreatedDesc (db.filter fun r => r.categorySlug = category.slug))
    limit offset) freshId now

/-- Go FindByStatus: WHERE status = $1 ORDER BY created_at DESC. -/
def repoFindByStatus (db : DB) (status : Status) (limit offset : Nat)
    (freshId : Str) (now : Int) : Except Str (List Item) :=
  rowsToItems (sqlLimitOffset
    (sqlOrderByCreatedDesc (db.filter fun r => r.status = status.toStr))
    limit offset) freshId now

/-- Go Search: name/description/sku ILIKE the query as a substring,
case-insensitively (semantics of the interpolated SQL on benign inputs). -/
def repoSearch (db : DB) (q : Str) (limit offset : Nat)
    (freshId : Str) (now : Int) : Except Str (List Item) :=
  rowsToItems (sqlLimitOffset
    (sqlOrderByCreatedDesc (db.filter fun r =>
      strHasSub (strToLower r.name) (strToLower q) ||
      strHasSub (strToLower r.description) (strToLower q) ||
      strHasSub (strToLower r.sku) (strToLower q)))
    limit offset) freshId now

/-- Go FindAvailableItems: WHERE status = 'active' AND inventory_quantity > 0. -/
def repoFindAvailableItems (db : DB) (limit offset : Nat)
    (freshId : Str) (now : Int) : Except Str (List Item) :=
  rowsToItems (sqlLimitOffset
    (sqlOrderByCreatedDesc (db.filter fun r =>
      r.status = "active".data && 0 < r.quantity))
    limit offset) freshId now

/-! ## Use-case layer (internal/application/usecase/item_usecase.go).

The category and pricing services are injected collaborators (interfaces in
src), modelled as function parameters. -/

/-- Go Inventory.IsAvailable. -/
def Inventory.isAvailable (i : Inventory) : Bool := decide (0 < i.quantity)

/-- Go Inventory.CanReserve. -/
def Inventory.canReserve (i : Inventory) (n : Int) : Bool := decide (n ≤ i.quantity)

structure ImageResponse where
  url : Str
  alt : Str
  primaryFlag : Bool
deriving DecidableEq, Repr

structure ItemResponse where
  id : Str
  sku : Str
  name : Str
  description : Str
  price : ℚ
  currency : Str
  categoryName : Str
  categorySlug : Str
  inventoryQuantity : Int
  inventoryAvailable : Bool
  images : List ImageResponse
  attributes : List (Str × Str)
  status : Str
  createdAt : Int
  updatedAt : Int
deriving DecidableEq, Repr

/-- Go mapItemToResponse. -/
def mapItemToResponse (i : Item) : ItemResponse :=
  { id := i.id, sku := i.sku, name := i.name, description := i.description
    price := i.price.Amount, currency := i.price.currency
    categoryName := i.category.name, categorySlug := i.category.slug
    inventoryQuantity := i.inventory.quantity
    inventoryAvailable := i.inventory.isAvailable
    images := i.images.map fun im => ⟨im.url, im.alt, im.primaryFlag⟩
    attributes := i.attributes, status := i.status.toStr
    createdAt := i.createdAt, updatedAt := i.updatedAt }

structure CreateItemRequest where
  sku : Str
  name : Str
  description : Str
  price : ℚ
  currency : Str
  category : Str
  inventory : Int
deriving DecidableEq, Repr

/-- Go CreateItem: shape validation, collaborator calls, category discounts,
duplicate pre-check (passing the ZERO-VALUE SKU, as the source does),
domain construction, initial status from the price threshold, Save. -/
def CreateItem (validateCategory : Str → Except Str Unit)
    (calculatePrice : ℚ → Str → Except Str ℚ)
    (db : DB) (req : CreateItemRequest) (freshId : Str) (now : Int) :
    Except Str (ItemResponse × DB) := do
  if req.name = [] ∨ req.name.length < 3 then
    throw "item name must be at least 3 characters".data
  if req.price ≤ 0 then throw "item price must be positive".data
  if 999999 < req.price then throw "item price too high".data
  if req.sku = [] then throw "SKU is required".data
  let skuUpper := strToUpper req.sku
  if skuUpper.length < 3 ∨ 50 < skuUpper.length then
    throw "SKU must be between 3 and 50 characters".data
  if req.category = [] then throw "category is required".data
  let _ ← wrapErr "invalid category: ".data (validateCategory req.category)
  let calculated ← wrapErr "failed to calculate price: ".data
    (calculatePrice req.price req.category)
  let finalPrice :=
    if req.category = "electronics".data then fpMul calculated (fpRound (95 / 100))
    else if req.category = "books".data then fpMul calculated (fpRound (90 / 100))
    else calculated
  if repoExistsBySKU db [] then throw "item with this SKU already exists".data
  let sku ← wrapErr "invalid SKU: ".data (NewSKU skuUpper)
  let price ← wrapErr "invalid price: ".data (NewPrice finalPrice "USD".data)
  let category ← wrapErr "invalid category: ".data (NewCategory req.category)
  let domainItem ← wrapErr "failed to create item: ".data
    (NewItem sku req.name req.description price category freshId now)
  let domainItem :=
    if 0 < req.inventory then
      domainItem.setInventory
        (match NewInventory req.inventory with | .ok v => v | .error _ => ⟨0⟩) now
    else domainItem
  let domainItem :=
    if 1000 < req.price then domainItem.setStatus .draft now
    else domainItem.setStatus .active now
  match repoSave db domainItem now with
  | .error e => throw ("failed to save item: ".data ++ e)
  | .ok (db2, saved) => .ok (mapItemToResponse saved, db2)

/-- Go GetItemByID, parametric in the injected repository's FindByID (the
use case depends only on the item.Repository interface): id shape checks,
lookup, then the draft-price masking of the response. -/
def GetItemByID (findByID : Str → Except Str Item) (id : Str) :
    Except Str ItemResponse := do
  if id = [] then throw "item ID cannot be empty".data
  if id.length ≠ 36 then throw "invalid item ID format".data
  if !(isCanonicalUUID id) then throw "invalid item ID: invalid item ID format".data
  let domainItem ← wrapErr "failed to find item: ".data (findByID id)
  let response := mapItemToResponse domainItem
  .ok (if domainItem.status = .draft then { response with price := 0 } else response)

structure SearchRequest where
  query : Str
  category : Str
  status : Str
  page : Nat
  pageSize : Nat
deriving DecidableEq, Repr

structure ItemListResponse where
  items : List ItemResponse
  total : Nat
  page : Nat
  pageSize : Nat
  totalPages : Nat
deriving DecidableEq, Repr

/-- Which repository query SearchItems dispatched. -/
inductive QueryKind where
  | search
  | byCategory
  | byStatus
  | availableItems
deriving DecidableEq, Repr

/-- Tail of Go SearchItems shared by the four branches: wrap repository
errors, map to responses, and compute totalPages from the returned page's
count as `(len + pageSize - 1) / pageSize`. -/
def finishSearch (req : SearchRequest) (kind : QueryKind)
    (queried : Except Str (List Item)) :
    Except Str (ItemListResponse × QueryKind) :=
  match queried with
  | .error e => .error ("failed to search items: ".data ++ e)
  | .ok items =>
    .ok ({ items := items.map mapItemToResponse, total := items.length,
           page := req.page, pageSize := req.pageSize,
           totalPages := (items.length + req.pageSize - 1) / req.pageSize }, kind)

/-- Go SearchItems: offset from page, then dispatch to exactly one
repository query by the priority Query, Category, Status, available items;
parse failures of the chosen field return early. The dispatched kind is
recorded alongside the response. -/
def SearchItems (db : DB) (req : SearchRequest) (freshId : Str) (now : Int) :
    Except Str (ItemListResponse × QueryKind) :=
  let offset := (req.page - 1) * req.pageSize
  if req.query ≠ [] then
    finishSearch req .search (repoSearch db req.query req.pageSize offset freshId now)
  else if req.category ≠ [] then
    match NewCategory req.category with
    | .error e => .error ("invalid category: ".data ++ e)
    | .ok c =>
      finishSearch req .byCategory (repoFindByCategory db c req.pageSize offset freshId now)
  else if req.status ≠ [] then
    match StatusFromString req.status with
    | .error e => .error ("invalid status: ".data ++ e)
    | .ok st =>
      finishSearch req .byStatus (repoFindByStatus db st req.pageSize offset freshId now)
  else
    finishSearch req .availableItems (repoFindAvailableItems db req.pageSize offset freshId now)

/-! ## Theorems -/

/-- C6: NewItem with an empty name string always fails with a domain error,
and with any non-empty name and any SKU, price, and category value objects
it always succeeds, returning an item with Status = Draft, zero inventory
quantity, no images, and the freshly generated ItemID. -/
theorem newItem_spec (sku name description : Str) (price : Price)
    (category : Category) (freshId : Str) (now : Int) :
    (name = [] → NewItem sku name description price category freshId now =
      .error "item name cannot be empty".data) ∧
    (name ≠ [] → ∃ it, NewItem sku name description price category freshId now = .ok it ∧
      it.status = .draft ∧ it.inventory.quantity = 0 ∧ it.images = [] ∧
      it.id = freshId ∧ it.sku = sku ∧ it.name = name ∧ it.price = price ∧
      it.category = category ∧ it.createdAt = now ∧ it.updatedAt = now) := by
  constructor
  · intro h
    simp [NewItem, h]
  · intro h
    refine ⟨{ id := freshId, sku := sku, name := name, description := description,
              price := price, category := category, inventory := ⟨0⟩, images := [],
              attributes := [], status := .draft, createdAt := now, updatedAt := now },
            ?_, rfl, rfl, rfl, rfl, rfl, rfl, rfl, rfl, rfl, rfl⟩
    simp [NewItem, h]

/-- C6 witness: a concrete successful construction. -/
theorem newItem_spec_witness :
    "Widget".data ≠ ([] : Str) ∧
    ∃ it, NewItem "ABC-1".data "Widget".data [] ⟨1999, "USD".data⟩
        ⟨"tools".data, "tools".data⟩ "f".data 0 = .ok it ∧
      it.status = .draft ∧ it.inventory.quantity = 0 ∧ it.images = [] ∧
      it.id = "f".data ∧ it.sku = "ABC-1".data ∧ it.name = "Widget".data ∧
      it.price = ⟨1999, "USD".data⟩ ∧ it.category = ⟨"tools".data, "tools".data⟩ ∧
      it.createdAt = 0 ∧ it.updatedAt = 0 :=
  ⟨by decide,
   (newItem_spec "ABC-1".data "Widget".data [] ⟨1999, "USD".data⟩
     ⟨"tools".data, "tools".data⟩ "f".data 0).2 (by decide)⟩

set_option maxRecDepth 4000 in
/-- C7 counterexample: the name bounds are not maintained. From a
successfully constructed item (reachable state), SetName installs the
empty name without any rejection, and NewItem itself accepts a
300-character name, so reachable items violate the [1, 255] length rule. -/
theorem setName_accepts_invalid_names :
    Except.map (fun it => ((it.setName [] 1).name,
        (it.setName (List.replicate 300 'A') 1).name.length))
      (NewItem "ABC-1".data "Widget".data [] ⟨1999, "USD".data⟩
        ⟨"tools".data, "tools".data⟩ "f".data 0) = .ok ([], 300) := by
  rfl

/-- C7 amended: the only name rule the entity enforces is non-emptiness at
construction: NewItem rejects exactly the empty name and accepts any
non-empty name of any length, and SetName stores any name, the empty one
included, with no validation, so no [1, 255] invariant holds of reachable
items. -/
theorem name_validation_spec :
    (∀ (sku name description : Str) (price : Price) (category : Category)
        (freshId : Str) (now : Int), name ≠ [] →
      ∃ it, NewItem sku name description price category freshId now = .ok it ∧
        it.name = name) ∧
    (∀ (sku description : Str) (price : Price) (category : Category)
        (freshId : Str) (now : Int),
      NewItem sku [] description price category freshId now =
        .error "item name cannot be empty".data) ∧
    (∀ (it : Item) (name : Str) (now : Int), (it.setName name now).name = name) := by
  refine ⟨fun sku name description price category freshId now h =>
    ⟨{ id := freshId, sku := sku, name := name, description := description,
       price := price, category := category, inventory := ⟨0⟩, images := [],
       attributes := [], status := .draft, createdAt := now, updatedAt := now },
     ?_, rfl⟩,
    fun sku description price category freshId now => rfl,
    fun it name now => rfl⟩
  simp [NewItem, h]

/-- C7 amended witness: a 300-character name is accepted as-is. -/
theorem name_validation_spec_witness :
    List.replicate 300 'A' ≠ ([] : Str) ∧
    ∃ it, NewItem "ABC-1".data (List.replicate 300 'A') [] ⟨1999, "USD".data⟩
        ⟨"tools".data, "tools".data⟩ "f".data 0 = .ok it ∧
      it.name = List.replicate 300 'A' :=
  ⟨by decide,
   name_validation_spec.1 "ABC-1".data (List.replicate 300 'A') [] ⟨1999, "USD".data⟩
     ⟨"tools".data, "tools".data⟩ "f".data 0 (by decide)⟩

/-- C8: every entity mutator (SetName, SetDescription, SetPrice,
SetCategory, SetInventory, SetStatus, SetImages, AddImage, ClearImages)
sets UpdatedAt to the (later) current time, hence strictly increases it,
and leaves every field other than the mutated one and UpdatedAt unchanged;
in particular CreatedAt, ID and SKU are unchanged. -/
theorem mutators_spec (i : Item) (now : Int) (h : i.updatedAt < now) :
    (∀ x, (i.setName x now).updatedAt = now ∧ i.updatedAt < (i.setName x now).updatedAt ∧
      (i.setName x now).name = x ∧ (i.setName x now).id = i.id ∧
      (i.setName x now).sku = i.sku ∧ (i.setName x now).description = i.description ∧
      (i.setName x now).price = i.price ∧ (i.setName x now).category = i.category ∧
      (i.setName x now).inventory = i.inventory ∧ (i.setName x now).images = i.images ∧
      (i.setName x now).attributes = i.attributes ∧ (i.setName x now).status = i.status ∧
      (i.setName x now).createdAt = i.createdAt) ∧
    (∀ x, (i.setDescription x now).updatedAt = now ∧
      i.updatedAt < (i.setDescription x now).updatedAt ∧
      (i.setDescription x now).description = x ∧ (i.setDescription x now).id = i.id ∧
      (i.setDescription x now).sku = i.sku ∧ (i.setDescription x now).name = i.name ∧
      (i.setDescription x now).price = i.price ∧
      (i.setDescription x now).category = i.category ∧
      (i.setDescription x now).inventory = i.inventory ∧
      (i.setDescription x now).images = i.images ∧
      (i.setDescription x now).attributes = i.attributes ∧
      (i.setDescription x now).status = i.status ∧
      (i.setDescription x now).createdAt = i.createdAt) ∧
    (∀ x, (i.setPrice x now).updatedAt = now ∧ i.updatedAt < (i.setPrice x now).updatedAt ∧
      (i.setPrice x now).price = x ∧ (i.setPrice x now).id = i.id ∧
      (i.setPrice x now).sku = i.sku ∧ (i.setPrice x now).name = i.name ∧
      (i.setPrice x now).description = i.description ∧
      (i.setPrice x now).category = i.category ∧
      (i.setPrice x now).inventory = i.inventory ∧ (i.setPrice x now).images = i.images ∧
      (i.setPrice x now).attributes = i.attributes ∧ (i.setPrice x now).status = i.status ∧
      (i.setPrice x now).createdAt = i.createdAt) ∧
    (∀ x, (i.setCategory x now).updatedAt = now ∧
      i.updatedAt < (i.setCategory x now).updatedAt ∧
      (i.setCategory x now).category = x ∧ (i.setCategory x now).id = i.id ∧
      (i.setCategory x now).sku = i.sku ∧ (i.setCategory x now).name = i.name ∧
      (i.setCategory x now).description = i.description ∧
      (i.setCategory x now).price = i.price ∧
      (i.setCategory x now).inventory = i.inventory ∧
      (i.setCategory x now).images = i.images ∧
      (i.setCategory x now).attributes = i.attributes ∧
      (i.setCategory x now).status = i.status ∧
      (i.setCategory x now).createdAt = i.createdAt) ∧
    (∀ x, (i.setInventory x now).updatedAt = now ∧
      i.updatedAt < (i.setInventory x now).updatedAt ∧
      (i.setInventory x now).inventory = x ∧ (i.setInventory x now).id = i.id ∧
      (i.setInventory x now).sku = i.sku ∧ (i.setInventory x now).name = i.name ∧
      (i.setInventory x now).description = i.description ∧
      (i.setInventory x now).price = i.price ∧
      (i.setInventory x now).category = i.category ∧
      (i.setInventory x now).images = i.images ∧
      (i.setInventory x now).attributes = i.attributes ∧
      (i.setInventory x now).status = i.status ∧
      (i.setInventory x now).createdAt = i.createdAt) ∧
    (∀ x, (i.setStatus x now).updatedAt = now ∧
      i.updatedAt < (i.setStatus x now).updatedAt ∧
      (i.setStatus x now).status = x ∧ (i.setStatus x now).id = i.id ∧
      (i.setStatus x now).sku = i.sku ∧ (i.setStatus x now).name = i.name ∧
      (i.setStatus x now).description = i.description ∧
      (i.setStatus x now).price = i.price ∧ (i.setStatus x now).category = i.category ∧
      (i.setStatus x now).inventory = i.inventory ∧
      (i.setStatus x now).images = i.images ∧
      (i.setStatus x now).attributes = i.attributes ∧
      (i.setStatus x now).createdAt = i.createdAt) ∧
    (∀ x, (i.setImages x now).updatedAt = now ∧
      i.updatedAt < (i.setImages x now).updatedAt ∧
      (i.setImages x now).images = x ∧ (i.setImages x now).id = i.id ∧
      (i.setImages x now).sku = i.sku ∧ (i.setImages x now).name = i.name ∧
      (i.setImages x now).description = i.description ∧
      (i.setImages x now).price = i.price ∧ (i.setImages x now).category = i.category ∧
      (i.setImages x now).inventory = i.inventory ∧
      (i.setImages x now).attributes = i.attributes ∧
      (i.setImages x now).status = i.status ∧
      (i.setImages x now).createdAt = i.createdAt) ∧
    (∀ x, (i.addImage x now).updatedAt = now ∧
      i.updatedAt < (i.addImage x now).updatedAt ∧
      (i.addImage x now).images = i.images ++ [x] ∧ (i.addImage x now).id = i.id ∧
      (i.addImage x now).sku = i.sku ∧ (i.addImage x now).name = i.name ∧
      (i.addImage x now).description = i.description ∧
      (i.addImage x now).price = i.price ∧ (i.addImage x now).category = i.category ∧
      (i.addImage x now).inventory = i.inventory ∧
      (i.addImage x now).attributes = i.attributes ∧
      (i.addImage x now).status = i.status ∧
      (i.addImage x now).createdAt = i.createdAt) ∧
    ((i.clearImages now).updatedAt = now ∧
      i.updatedAt < (i.clearImages now).updatedAt ∧
      (i.clearImages now).images = [] ∧ (i.clearImages now).id = i.id ∧
      (i.clearImages now).sku = i.sku ∧ (i.clearImages now).name = i.name ∧
      (i.clearImages now).description = i.description ∧
      (i.clearImages now).price = i.price ∧ (i.clearImages now).category = i.category ∧
      (i.clearImages now).inventory = i.inventory ∧
      (i.clearImages now).attributes = i.attributes ∧
      (i.clearImages now).status = i.status ∧
      (i.clearImages now).createdAt = i.createdAt) :=
  ⟨fun _ => ⟨rfl, h, rfl, rfl, rfl, rfl, rfl, rfl, rfl, rfl, rfl, rfl, rfl⟩,
   fun _ => ⟨rfl, h, rfl, rfl, rfl, rfl, rfl, rfl, rfl, rfl, rfl, rfl, rfl⟩,
   fun _ => ⟨rfl, h, rfl, rfl, rfl, rfl, rfl, rfl, rfl, rfl, rfl, rfl, rfl⟩,
   fun _ => ⟨rfl, h, rfl, rfl, rfl, rfl, rfl, rfl, rfl, rfl, rfl, rfl, rfl⟩,
   fun _ => ⟨rfl, h, rfl, rfl, rfl, rfl, rfl, rfl, rfl, rfl, rfl, rfl, rfl⟩,
   fun _ => ⟨rfl, h, rfl, rfl, rfl, rfl, rfl, rfl, rfl, rfl, rfl, rfl, rfl⟩,
   fun _ => ⟨rfl, h, rfl, rfl, rfl, rfl, rfl, rfl, rfl, rfl, rfl, rfl, rfl⟩,
   fun _ => ⟨rfl, h, rfl, rfl, rfl, rfl, rfl, rfl, rfl, rfl, rfl, rfl, rfl⟩,
   ⟨rfl, h, rfl, rfl, rfl, rfl, rfl, rfl, rfl, rfl, rfl, rfl, rfl⟩⟩

/-- Concrete item used by several witnesses below. -/
def sampleItem : Item :=
  { id := "f".data, sku := "ABC-1".data, name := "Widget".data, description := [],
    price := ⟨1999, "USD".data⟩, category := ⟨"tools".data, "tools".data⟩,
    inventory := ⟨0⟩, images := [], attributes := [], status := .draft,
    createdAt := 0, updatedAt := 0 }

/-- C8 witness: the mutator contract at a concrete item, clock and name. -/
theorem mutators_spec_witness :
    sampleItem.updatedAt < 1 ∧
    (sampleItem.setName "New".data 1).updatedAt = 1 ∧
    sampleItem.updatedAt < (sampleItem.setName "New".data 1).updatedAt ∧
    (sampleItem.setName "New".data 1).name = "New".data ∧
    (sampleItem.setName "New".data 1).sku = sampleItem.sku ∧
    (sampleItem.setName "New".data 1).createdAt = sampleItem.createdAt :=
  ⟨by decide,
   ((mutators_spec sampleItem 1 (by decide)).1 "New".data).1,
   ((mutators_spec sampleItem 1 (by decide)).1 "New".data).2.1,
   ((mutators_spec sampleItem 1 (by decide)).1 "New".data).2.2.1,
   ((mutators_spec sampleItem 1 (by decide)).1 "New".data).2.2.2.2.1,
   ((mutators_spec sampleItem 1 (by decide)).1 "New".data).2.2.2.2.2.2.2.2.2.2.2.2⟩

/-- C9: for each status whose lowercase name the input matches,
StatusFromString succeeds with that status and its String() equals the
lowercase of the input (case-insensitive round-trip); on every other
string it fails with the invalid-status validation error. -/
theorem statusFromString_spec (s : Str) :
    (∀ st : Status, strToLower s = st.toStr →
      StatusFromString s = .ok st ∧ st.toStr = strToLower s) ∧
    ((∀ st : Status, strToLower s ≠ st.toStr) →
      StatusFromString s = .error ("invalid status: ".data ++ s)) := by
  constructor
  · intro st h
    refine ⟨?_, h.symm⟩
    cases st <;> simp only [Status.toStr] at h <;> simp [StatusFromString, h]
  · intro h
    have ha := h .active
    have hi := h .inactive
    have hd := h .draft
    have hr := h .archived
    simp only [Status.toStr] at ha hi hd hr
    simp [StatusFromString, ha, hi, hd, hr]

/-- C9 witness: "ACTIVE" parses case-insensitively and round-trips to
"active"; "bogus" is rejected. -/
theorem statusFromString_spec_witness :
    strToLower "ACTIVE".data = Status.toStr .active ∧
    StatusFromString "ACTIVE".data = .ok .active ∧
    Status.toStr .active = strToLower "ACTIVE".data ∧
    StatusFromString "bogus".data = .error ("invalid status: ".data ++ "bogus".data) :=
  ⟨by decide,
   ((statusFromString_spec "ACTIVE".data).1 .active (by decide)).1,
   ((statusFromString_spec "ACTIVE".data).1 .active (by decide)).2,
   (statusFromString_spec "bogus".data).2 (fun st => by cases st <;> decide)⟩

/-- C3 counterexample: the too-short and too-long cases do NOT yield
distinct reasons — both produce the single length message. -/
theorem newSKU_length_reasons_collide :
    NewSKU "AB".data = .error "SKU must be between 3 and 20 characters".data ∧
    NewSKU "ABCDEFGHIJKLMNOPQRSTU".data =
      .error "SKU must be between 3 and 20 characters".data := ⟨rfl, rfl⟩

/-- Every reason validateSKU can produce contains (starts with) "SKU". -/
lemma validateSKU_reason (t e : Str) (h : validateSKU t = some e) :
    ∃ pre post, e = pre ++ "SKU".data ++ post := by
  unfold validateSKU at h
  split_ifs at h
  · rw [Option.some.injEq] at h
    exact ⟨[], " cannot be empty".data, by rw [← h]; decide⟩
  · rw [Option.some.injEq] at h
    exact ⟨[], " must be between 3 and 20 characters".data, by rw [← h]; decide⟩
  · rw [Option.some.injEq] at h
    exact ⟨[], " can only contain uppercase letters, numbers, hyphens, and underscores".data,
      by rw [← h]; decide⟩

/-- C3 amended: on inputs whose uppercased, trimmed form has length 3 to 20
over A-Z, 0-9, hyphen and underscore, NewSKU returns that form; every
violating input (the empty string included) fails with a reason containing
"SKU"; the empty, length-violation and bad-character cases each have their
own reason, but too-short and too-long share the single length reason. -/
theorem newSKU_spec (input s : Str) (hs : s = trimSpace (strToUpper input)) :
    (3 ≤ s.length → s.length ≤ 20 → s.all isSKUChar = true → NewSKU input = .ok s) ∧
    (s = [] → NewSKU input = .error "SKU cannot be empty".data) ∧
    (s ≠ [] → s.length < 3 ∨ 20 < s.length →
      NewSKU input = .error "SKU must be between 3 and 20 characters".data) ∧
    (3 ≤ s.length → s.length ≤ 20 → s.all isSKUChar = false →
      NewSKU input =
        .error "SKU can only contain uppercase letters, numbers, hyphens, and underscores".data) ∧
    (∀ e, NewSKU input = .error e → ∃ pre post, e = pre ++ "SKU".data ++ post) := by
  subst hs
  refine ⟨?_, ?_, ?_, ?_, ?_⟩
  · intro h1 h2 h3
    have hv : validateSKU (trimSpace (strToUpper input)) = none := by
      unfold validateSKU
      split_ifs with e1 e2 e3
      · rw [e1] at h1; simp at h1
      · simp only [Bool.or_eq_true, decide_eq_true_eq] at e2; omega
      · simp only [Bool.not_eq_true'] at e3; rw [h3] at e3; cases e3
      · rfl
    simp [NewSKU, hv]
  · intro h
    simp [NewSKU, validateSKU, h]
  · intro hne hlen
    have hc : (decide (List.length (trimSpace (strToUpper input)) < 3) ||
        decide (List.length (trimSpace (strToUpper input)) > 20)) = true := by
      simp only [Bool.or_eq_true, decide_eq_true_eq]
      omega
    have hv : validateSKU (trimSpace (strToUpper input)) =
        some "SKU must be between 3 and 20 characters".data := by
      unfold validateSKU
      rw [if_neg hne, if_pos hc]
    simp [NewSKU, hv]
  · intro h1 h2 h3
    have hv : validateSKU (trimSpace (strToUpper input)) =
        some "SKU can only contain uppercase letters, numbers, hyphens, and underscores".data := by
      unfold validateSKU
      split_ifs with e1 e2 e3
      · rw [e1] at h1; simp at h1
      · simp only [Bool.or_eq_true, decide_eq_true_eq] at e2; omega
      · rfl
      · simp only [Bool.not_eq_true, Bool.not_eq_false] at e3; rw [h3] at e3; cases e3
    simp [NewSKU, hv]
  · intro e he
    have hNew : NewSKU input =
        match validateSKU (trimSpace (strToUpper input)) with
        | some m => Except.error m
        | none => Except.ok (trimSpace (strToUpper input)) := rfl
    rw [hNew] at he
    have hval : validateSKU (trimSpace (strToUpper input)) = some e := by
      cases hv : validateSKU (trimSpace (strToUpper input)) with
      | none => rw [hv] at he; cases he
      | some m =>
        rw [hv] at he
        simp only [Except.error.injEq] at he
        rw [he]
    exact validateSKU_reason _ e hval

/-- C3 amended witness: a padded lowercase input is normalized and
accepted; the empty and bad-character inputs produce their own reasons. -/
theorem newSKU_spec_witness :
    trimSpace (strToUpper "  abc-001 ".data) = "ABC-001".data ∧
    NewSKU "  abc-001 ".data = .ok "ABC-001".data ∧
    NewSKU [] = .error "SKU cannot be empty".data ∧
    NewSKU "ABC@123".data =
      .error "SKU can only contain uppercase letters, numbers, hyphens, and underscores".data :=
  ⟨by decide,
   by
    have h := (newSKU_spec "  abc-001 ".data "ABC-001".data (by decide)).1
      (by decide) (by decide) (by decide)
    simpa using h,
   (newSKU_spec [] [] (by decide)).2.1 rfl,
   by
    have h := (newSKU_spec "ABC@123".data "ABC@123".data (by decide)).2.2.2.1
      (by decide) (by decide) (by decide)
    simpa using h⟩

/-- C4 amended: NewPrice succeeds exactly on non-negative amounts; the
empty currency defaults to USD and any currency is uppercased; the stored
minor-unit amount is the BINARY64 product amount*100 (correctly rounded)
truncated toward zero, which stays within one relative ulp of the exact
product but can lose a cent against exact truncation (float64(19.99)
stores 1998 cents, so Amount() is not always the input truncated to
2 decimal places); the float64 nearest 19.995 still stores 1999, not 2000. -/
theorem newPrice_spec (amount : ℚ) (currency : Str) :
    (amount < 0 → NewPrice amount currency = .error "price cannot be negative".data) ∧
    (0 ≤ amount → ∃ p, NewPrice amount currency = .ok p ∧
      p.currency = strToUpper (if currency = [] then "USD".data else currency) ∧
      p.amount = goTruncInt (fpMul amount 100) ∧
      0 ≤ p.amount ∧
      (p.amount : ℚ) ≤ amount * 100 + amount * 100 / 2 ^ (53 : ℕ) ∧
      amount * 100 - amount * 100 / 2 ^ (53 : ℕ) - 1 < (p.amount : ℚ) ∧
      Price.Amount p = fpDiv (fpOfInt p.amount) 100) := by
  constructor
  · intro h
    simp [NewPrice, h]
  · intro h
    have hnlt : ¬ amount < 0 := not_lt.mpr h
    have h100 : 0 ≤ amount * 100 := by positivity
    have herr := fpRound_err (amount * 100) h100
    rw [abs_le] at herr
    have hnn : 0 ≤ fpRound (amount * 100) := fpRound_nonneg _ h100
    have htr : goTruncInt (fpMul amount 100) = ⌊fpRound (amount * 100)⌋ := by
      unfold goTruncInt fpMul
      rw [if_pos hnn]
    have hfl1 : (⌊fpRound (amount * 100)⌋ : ℚ) ≤ fpRound (amount * 100) :=
      Int.floor_le _
    have hfl2 : fpRound (amount * 100) < ⌊fpRound (amount * 100)⌋ + 1 :=
      Int.lt_floor_add_one _
    refine ⟨⟨goTruncInt (fpMul amount 100),
      strToUpper (if currency = [] then "USD".data else currency)⟩,
      ?_, rfl, rfl, ?_, ?_, ?_, rfl⟩
    · simp [NewPrice, hnlt]
    · show 0 ≤ goTruncInt (fpMul amount 100)
      rw [htr]
      exact Int.floor_nonneg.mpr hnn
    · show ((goTruncInt (fpMul amount 100) : ℤ) : ℚ) ≤
        amount * 100 + amount * 100 / 2 ^ (53 : ℕ)
      rw [htr]
      linarith [herr.2]
    · show amount * 100 - amount * 100 / 2 ^ (53 : ℕ) - 1 <
        ((goTruncInt (fpMul amount 100) : ℤ) : ℚ)
      rw [htr]
      linarith [herr.1]

/-- C10: whenever the injected repository finds the item for a well-formed
36-character id, GetItemByID succeeds, with the response price forced to 0
when the item's status is Draft and equal to the item's price amount
otherwise. -/
theorem getItemByID_draft_price_masked (findByID : Str → Except Str Item)
    (id : Str) (it : Item) (h36 : id.length = 36)
    (huuid : isCanonicalUUID id = true) (hfind : findByID id = .ok it) :
    (it.status = .draft →
      GetItemByID findByID id = .ok { mapItemToResponse it with price := 0 } ∧
      ({ mapItemToResponse it with price := 0 } : ItemResponse).price = 0) ∧
    (it.status ≠ .draft →
      GetItemByID findByID id = .ok (mapItemToResponse it) ∧
      (mapItemToResponse it).price = it.price.Amount) := by
  have hne : id ≠ [] := by
    intro e
    rw [e] at h36
    cases h36
  constructor
  · intro hd
    refine ⟨?_, rfl⟩
    simp [GetItemByID, hne, h36, huuid, wrapErr, hfind, hd, Bind.bind, Except.bind, Pure.pure, Except.pure]
  · intro hd
    refine ⟨?_, rfl⟩
    simp [GetItemByID, hne, h36, huuid, wrapErr, hfind, hd, Bind.bind, Except.bind, Pure.pure, Except.pure]

/-- A valid canonical UUID string used by concrete witnesses. -/
def sampleUUID : Str := "123e4567-e89b-12d3-a456-426614174000".data

/-- C10 witness: the draft item's price is masked to 0, a non-draft copy of
the same item keeps its 19.99 amount. -/
theorem getItemByID_draft_price_masked_witness :
    sampleUUID.length = 36 ∧ isCanonicalUUID sampleUUID = true ∧
    sampleItem.status = .draft ∧
    (GetItemByID (fun _ => .ok sampleItem) sampleUUID =
      .ok { mapItemToResponse sampleItem with price := 0 } ∧
     ({ mapItemToResponse sampleItem with price := 0 } : ItemResponse).price = 0) ∧
    ({ sampleItem with status := .active } : Item).status ≠ .draft ∧
    (GetItemByID (fun _ => .ok { sampleItem with status := .active }) sampleUUID =
      .ok (mapItemToResponse { sampleItem with status := .active }) ∧
     (mapItemToResponse { sampleItem with status := .active }).price =
       ({ sampleItem with status := .active } : Item).price.Amount) :=
  ⟨by decide, by decide, rfl,
   (getItemByID_draft_price_masked (fun _ => .ok sampleItem) sampleUUID sampleItem
     (by decide) (by decide) rfl).1 rfl,
   by decide,
   (getItemByID_draft_price_masked (fun _ => .ok { sampleItem with status := .active })
     sampleUUID { sampleItem with status := .active }
     (by decide) (by decide) rfl).2 (by decide)⟩

/-- Lower and upper bound characterizing `(n + ps - 1) / ps` as the ceiling
of n / ps. -/
lemma ceil_div_bounds (n ps : Nat) (hps : 0 < ps) :
    n ≤ ((n + ps - 1) / ps) * ps ∧ ((n + ps - 1) / ps) * ps < n + ps := by
  have h1 : ((n + ps - 1) / ps) * ps ≤ n + ps - 1 :=
    (Nat.le_div_iff_mul_le hps).mp le_rfl
  have h2 : n + ps - 1 < ((n + ps - 1) / ps + 1) * ps :=
    (Nat.div_lt_iff_lt_mul hps).mp (Nat.lt_succ_self _)
  rw [Nat.add_one_mul] at h2
  generalize ((n + ps - 1) / ps) * ps = k at h1 h2 ⊢
  omega

/-- What a successful finishSearch forces: the recorded kind, the total and
the totalPages formula. -/
lemma finishSearch_ok (req : SearchRequest) (kind : QueryKind)
    (q : Except Str (List Item)) (resp : ItemListResponse) (k2 : QueryKind)
    (h : finishSearch req kind q = .ok (resp, k2)) :
    k2 = kind ∧ resp.total = resp.items.length ∧
    resp.totalPages = (resp.items.length + req.pageSize - 1) / req.pageSize := by
  cases q with
  | error e => simp [finishSearch] at h
  | ok items =>
    simp only [finishSearch, Except.ok.injEq, Prod.mk.injEq] at h
    obtain ⟨h1, h2⟩ := h
    subst h2
    rw [← h1]
    simp [List.length_map]

/-- C5 counterexample: a request whose Category field is populated but all
blank makes SearchItems fail on category parsing and dispatch NO
repository query at all, so it is not the case that every request
dispatches exactly one query. -/
theorem searchItems_blank_category_dispatches_nothing :
    SearchItems []
      { query := [], category := [' '], status := [], page := 1, pageSize := 10 }
      "f".data 0 =
      .error ("invalid category: ".data ++ "category name cannot be empty".data) := rfl

/-- C5 amended: every SearchItems call that returns successfully (its
selected filter field parses) dispatched exactly one repository query,
chosen by the priority order Query, then Category, then Status, then
available items, and its TotalPages is the ceiling of the returned page's
item count divided by PageSize. -/
theorem searchItems_spec (db : DB) (req : SearchRequest) (freshId : Str)
    (now : Int) (resp : ItemListResponse) (kind : QueryKind)
    (hps : 0 < req.pageSize)
    (h : SearchItems db req freshId now = .ok (resp, kind)) :
    ((kind = .search ↔ req.query ≠ []) ∧
     (kind = .byCategory ↔ req.query = [] ∧ req.category ≠ []) ∧
     (kind = .byStatus ↔ req.query = [] ∧ req.category = [] ∧ req.status ≠ []) ∧
     (kind = .availableItems ↔ req.query = [] ∧ req.category = [] ∧ req.status = [])) ∧
    resp.total = resp.items.length ∧
    resp.totalPages = (resp.items.length + req.pageSize - 1) / req.pageSize ∧
    resp.items.length ≤ resp.totalPages * req.pageSize ∧
    resp.totalPages * req.pageSize < resp.items.length + req.pageSize := by
  have bounds := ceil_div_bounds resp.items.length req.pageSize hps
  by_cases hq : req.query = []
  · by_cases hc : req.category = []
    · by_cases hs : req.status = []
      · -- available-items branch
        unfold SearchItems at h
        rw [if_neg (not_not_intro hq), if_neg (not_not_intro hc),
          if_neg (not_not_intro hs)] at h
        obtain ⟨hk, ht, hp⟩ := finishSearch_ok _ _ _ _ _ h
        subst hk
        rw [hp]
        exact ⟨by simp [hq, hc, hs], ht, rfl, bounds.1, bounds.2⟩
      · -- status branch
        unfold SearchItems at h
        rw [if_neg (not_not_intro hq), if_neg (not_not_intro hc), if_pos hs] at h
        cases hst : StatusFromString req.status with
        | error e => rw [hst] at h; cases h
        | ok st =>
          rw [hst] at h
          obtain ⟨hk, ht, hp⟩ := finishSearch_ok _ _ _ _ _ h
          subst hk
          rw [hp]
          exact ⟨by simp [hq, hc, hs], ht, rfl, bounds.1, bounds.2⟩
    · -- category branch
      unfold SearchItems at h
      rw [if_neg (not_not_intro hq), if_pos hc] at h
      cases hcat : NewCategory req.category with
      | error e => rw [hcat] at h; cases h
      | ok c =>
        rw [hcat] at h
        obtain ⟨hk, ht, hp⟩ := finishSearch_ok _ _ _ _ _ h
        subst hk
        rw [hp]
        exact ⟨by simp [hq, hc], ht, rfl, bounds.1, bounds.2⟩
  · -- free-text search branch
    unfold SearchItems at h
    rw [if_pos hq] at h
    obtain ⟨hk, ht, hp⟩ := finishSearch_ok _ _ _ _ _ h
    subst hk
    rw [hp]
    exact ⟨by simp [hq], ht, rfl, bounds.1, bounds.2⟩

/-- A concrete free-text search request, used by the C5 witness. -/
def wSearchReq : SearchRequest :=
  { query := "w".data, category := [], status := [], page := 1, pageSize := 10 }

/-- The response SearchItems produces for wSearchReq on the empty store. -/
def wSearchResp : ItemListResponse :=
  { items := [], total := 0, page := 1, pageSize := 10, totalPages := 0 }

/-- C5 amended witness: a concrete free-text request against the empty
store dispatches the Search query and reports zero total pages. -/
theorem searchItems_spec_witness :
    0 < wSearchReq.pageSize ∧
    SearchItems [] wSearchReq "f".data 0 = .ok (wSearchResp, .search) ∧
    (QueryKind.search = QueryKind.search ↔ wSearchReq.query ≠ []) ∧
    wSearchResp.total = wSearchResp.items.length ∧
    wSearchResp.totalPages =
      (wSearchResp.items.length + wSearchReq.pageSize - 1) / wSearchReq.pageSize := by
  have h := searchItems_spec [] wSearchReq "f".data 0 wSearchResp .search
    (by decide) rfl
  exact ⟨by decide, rfl, h.1.1, h.2.1, h.2.2.1⟩

/-! ## Claims about the persistence round-trip and duplicate SKUs.

The concrete runs below are settled by evaluation; the rational-arithmetic
primitives are made semireducible locally so the kernel can compute them. -/

/-- Equality of Except values is decidable when both components are. -/
instance exceptDecEq {e a : Type} [DecidableEq e] [DecidableEq a] :
    DecidableEq (Except e a)
  | .error x, .error y =>
    if h : x = y then .isTrue (by rw [h]) else .isFalse (by intro hc; cases hc; exact h rfl)
  | .error _, .ok _ => .isFalse (by intro hc; cases hc)
  | .ok _, .error _ => .isFalse (by intro hc; cases hc)
  | .ok x, .ok y =>
    if h : x = y then .isTrue (by rw [h]) else .isFalse (by intro hc; cases hc; exact h rfl)

section ConcreteEvaluation

attribute [local semireducible] Rat.ofScientific Rat.mul Rat.inv Rat.add Rat.sub

/-- The binary64 value the program receives for the decimal input 19.99
(slightly below 19.99). -/
def fp19_99 : ℚ := fpRound (1999 / 100)

/-- The binary64 value the program receives for the decimal input 19.995. -/
def fp19_995 : ℚ := fpRound (19995 / 1000)

set_option maxRecDepth 8000 in
/-- C4 counterexample: for the decimal input 19.99 the program stores 1998
cents, although 19.99 x 100 truncated toward zero is 1999 — the binary64
product float64(19.99)*100 falls just below 1999 — and Amount() then
returns a value below 19.99, not the input truncated to 2 decimal
places. -/
theorem newPrice_float_drops_cent :
    NewPrice fp19_99 [] = .ok ⟨1998, "USD".data⟩ ∧
    goTruncInt ((1999 / 100 : ℚ) * 100) = 1999 ∧
    (1998 : ℤ) ≠ 1999 ∧
    Price.Amount ⟨1998, "USD".data⟩ < 1999 / 100 := by
  refine ⟨by decide, by decide, by decide, by decide⟩

set_option maxRecDepth 8000 in
/-- C4 amended witness: the float64 nearest 19.995, with an empty
currency, is stored as exactly 1999 cents (not 2000) in USD. -/
theorem newPrice_spec_witness :
    (0 ≤ fp19_995) ∧
    (∃ p, NewPrice fp19_995 [] = .ok p ∧
      p.currency = strToUpper (if ([] : Str) = [] then "USD".data else []) ∧
      p.amount = goTruncInt (fpMul fp19_995 100) ∧
      0 ≤ p.amount ∧
      (p.amount : ℚ) ≤ fp19_995 * 100 + fp19_995 * 100 / 2 ^ (53 : ℕ) ∧
      fp19_995 * 100 - fp19_995 * 100 / 2 ^ (53 : ℕ) - 1 < (p.amount : ℚ) ∧
      Price.Amount p = fpDiv (fpOfInt p.amount) 100) ∧
    NewPrice fp19_995 [] = .ok ⟨1999, "USD".data⟩ :=
  ⟨by decide, (newPrice_spec fp19_995 []).2 (by decide), by decide⟩

/-- A fully-populated active item with inventory, an image and an
attribute, as persisted by Save in the C1 scenario. -/
def savedItem : Item :=
  { id := sampleUUID, sku := "ABC-1".data, name := "Widget".data, description := [],
    price := ⟨1999, "USD".data⟩, category := ⟨"tools".data, "tools".data⟩,
    inventory := ⟨7⟩, images := [⟨"http://x/1.png".data, "front".data, true⟩],
    attributes := [("color".data, "red".data)], status := .active,
    createdAt := 0, updatedAt := 0 }

/-- The row Save writes for savedItem: note the binary64 write already
drops a cent (1999 stored cents round-trip through Amount()*100 to 1998). -/
def savedRow : ItemRow :=
  { id := sampleUUID, sku := "ABC-1".data, name := "Widget".data, description := [],
    priceCents := 1998, currency := "USD".data, categoryName := "tools".data,
    categorySlug := "tools".data, quantity := 7,
    images := [⟨"http://x/1.png".data, "front".data, true⟩],
    attributes := [("color".data, "red".data)], status := "active".data,
    createdAt := 0, updatedAt := 0 }

/-- A second canonical UUID, the fresh id generated at load time. -/
def loadUUID : Str := "00000000-0000-0000-0000-000000000000".data

/-- What FindBySKU actually returns after loading savedRow at time 5 with
fresh id loadUUID. -/
def loadedItem : Item :=
  { id := loadUUID, sku := "ABC-1".data, name := "Widget".data, description := [],
    price := ⟨1998, "USD".data⟩, category := ⟨"tools".data, "tools".data⟩,
    inventory := ⟨0⟩, images := [], attributes := [], status := .draft,
    createdAt := 5, updatedAt := 5 }

set_option maxRecDepth 8000 in
/-- C1 is violated: Save persists the row faithfully (active status,
quantity 7, one image, one attribute), but loading it back through
FindBySKU returns an item whose id is the load-time fresh id, whose status
is Draft, whose inventory is zero and whose images and attributes are
empty: rowToItem discards the persisted state. -/
theorem rowToItem_discards_persisted_state :
    repoSave [] savedItem 1 = .ok ([savedRow], savedItem) ∧
    savedRow.status = "active".data ∧ savedRow.quantity = 7 ∧
    savedRow.images.length = 1 ∧ savedRow.attributes.length = 1 ∧
    repoFindBySKU [savedRow] "ABC-1".data loadUUID 5 = .ok loadedItem ∧
    loadedItem.id = loadUUID ∧ loadedItem.id ≠ savedItem.id ∧
    loadedItem.status = .draft ∧ loadedItem.inventory.quantity = 0 ∧
    loadedItem.images = [] ∧ loadedItem.attributes = [] := by
  refine ⟨by decide, by decide, by decide, by decide, by decide, by decide,
    by decide, by decide, by decide, by decide, by decide, by decide⟩

/-- The injected category collaborator that accepts every category. -/
def alwaysValidCategory : Str → Except Str Unit := fun _ => .ok ()

/-- The injected pricing collaborator that returns the base price. -/
def identityPricing : ℚ → Str → Except Str ℚ := fun base _ => .ok base

/-- The C2 scenario request: SKU ABC-1, a benign category, and the float64
the program receives for the decimal price 19.99. -/
def createReq : CreateItemRequest :=
  { sku := "abc-1".data, name := "Widget".data, description := [],
    price := fp19_99, currency := [], category := "tools".data, inventory := 5 }

/-- The domain item the first CreateItem call builds and saves (the
binary64 conversion stores 1998 cents for the 19.99 input). -/
def createdItem1 : Item :=
  { id := sampleUUID, sku := "ABC-1".data, name := "Widget".data, description := [],
    price := ⟨1998, "USD".data⟩, category := ⟨"tools".data, "tools".data⟩,
    inventory := ⟨5⟩, images := [], attributes := [], status := .active,
    createdAt := 1, updatedAt := 1 }

/-- The row the first CreateItem call inserts. -/
def createdRow1 : ItemRow :=
  { id := sampleUUID, sku := "ABC-1".data, name := "Widget".data, description := [],
    priceCents := 1998, currency := "USD".data, categoryName := "tools".data,
    categorySlug := "tools".data, quantity := 5, images := [], attributes := [],
    status := "active".data, createdAt := 1, updatedAt := 1 }

set_option maxRecDepth 8000 in
/-- C2 is violated: the first CreateItem succeeds and stores SKU ABC-1;
the second call with the same SKU is NOT stopped by the duplicate
pre-check (the code passes the zero-value empty SKU to ExistsBySKU, which
reports false) and instead fails only at INSERT time with the generic
wrapped save error, never the DuplicateKey reason "item with this SKU
already exists". -/
theorem createItem_duplicate_sku_not_reported :
    CreateItem alwaysValidCategory identityPricing [] createReq sampleUUID 1 =
      .ok (mapItemToResponse createdItem1, [createdRow1]) ∧
    repoExistsBySKU [createdRow1] "ABC-1".data = true ∧
    repoExistsBySKU [createdRow1] [] = false ∧
    CreateItem alwaysValidCategory identityPricing [createdRow1] createReq loadUUID 2 =
      .error ("failed to save item: ".data ++
        ("failed to save item: ".data ++ pqDuplicateMsg)) ∧
    "failed to save item: ".data ++ ("failed to save item: ".data ++ pqDuplicateMsg) ≠
      "item with this SKU already exists".data := by
  refine ⟨by decide, by decide, by decide, by decide, by decide⟩

end ConcreteEvaluation

end ItemPDP
